import Mathlib

/-!
Verification of the session-scoped canvas-board server (server/index.js).

The definitions below are a shallow embedding of the server's data model and
handlers: JavaScript numbers appearing in the layout arithmetic are modelled
as `Int` (all divisions in the source are `Math.floor` of a division by a
positive constant, which coincides with `Int.fdiv`), JavaScript truthiness of
optional string/number fields is modelled explicitly, and the asynchronous
store is modelled as explicit state passing over an association list keyed by
session id (the in-memory branch of the store; the Redis branch keys records
by the same composite key, so the session-keying structure is identical).
-/

namespace Board

/-- A JS `height` field: a number, the string sentinel "auto", or undefined. -/
inductive JHeight where
  | num (n : Int)
  | auto
  | undef
deriving DecidableEq, Repr

/-- A sub-entry of a todo entry (`subTodos` array element). -/
structure SubTodo where
  text : String
  status : String
deriving DecidableEq, Repr

/-- A top-level entry of `todoData.todos`; `subTodos` may be absent. -/
structure TodoEntry where
  text : String
  status : String
  subTodos : Option (List SubTodo)
deriving DecidableEq, Repr

/-- `todoData` payload of a todo item. -/
structure TodoData where
  title : String
  description : String
  todos : List TodoEntry
deriving DecidableEq, Repr

/-- `agentData` payload of an agent item. -/
structure AgentData where
  title : String
  markdown : String
deriving DecidableEq, Repr

/-- A board item, restricted to the fields the server core reads. -/
structure Item where
  id : String
  type : String
  x : Int
  y : Int
  width : Int
  height : JHeight
  todoData : Option TodoData
  agentData : Option AgentData
deriving DecidableEq, Repr

/-- A zone rectangle (configuration constant). -/
structure Zone where
  x : Int
  y : Int
  width : Int
  height : Int
deriving DecidableEq, Repr

def TASK_ZONE : Zone := ⟨4200, 0, 2000, 2100⟩
def RETRIEVED_DATA_ZONE : Zone := ⟨4200, -4600, 2000, 2100⟩
def DOCTORS_NOTE_ZONE : Zone := ⟨4200, -2300, 2000, 2100⟩

/-- Content-based branch of `estimateItemHeight` (the code after the numeric
`item.height` early return). -/
def estimateFromContent (item : Item) : Int :=
  if item.type == "todo" && item.todoData.isSome then
    let td := item.todoData.getD ⟨"", "", []⟩
    let descriptionHeight : Int := if td.description == "" then 0 else 30
    let totalHeight : Int :=
      td.todos.foldl
        (fun acc t =>
          acc + 50 + (match t.subTodos with
            | some l => 30 * (l.length : Int)
            | none => 0))
        (120 + descriptionHeight)
    min (max totalHeight 200) 1200
  else if item.type == "agent" && item.agentData.isSome then
    let ad := item.agentData.getD ⟨"", ""⟩
    let estimatedLines : Int := ((ad.markdown.length + 59) / 60 : Nat)
    min (max (100 + estimatedLines * 20) 200) 800
  else if item.type == "lab-result" then 280
  else 450

/-- `estimateItemHeight`: a truthy numeric declared height wins (`0` is falsy
in JS and falls through to the content estimate, as do "auto"/undefined). -/
def estimateItemHeight (item : Item) : Int :=
  match item.height with
  | .num n => if n == 0 then estimateFromContent item else n
  | _ => estimateFromContent item

/-- Geometric containment test used by every zone filter in the source. -/
def inZone (z : Zone) (item : Item) : Bool :=
  decide (z.x ≤ item.x) && decide (item.x < z.x + z.width) &&
  decide (z.y ≤ item.y) && decide (item.y < z.y + z.height)

/-- One `forEach` step of the column-occupancy accumulation: bucket the item
into a column by floor division and raise that column's bottom if needed. -/
def bumpColumn (cols : List Int) (idx : Nat) (bottom : Int) : List Int :=
  if bottom > cols.getD idx 0 then cols.set idx bottom else cols

/-- The column-occupancy pass shared by `findPositionInZone` and
`findTaskZonePosition` (colWidth + padding = 580). -/
def fillColumns (startX : Int) (maxColumns : Nat) (items : List Item)
    (init : List Int) : List Int :=
  items.foldl
    (fun cols item =>
      let col := (item.x - startX).fdiv 580
      if 0 ≤ col && col < (maxColumns : Int) then
        bumpColumn cols col.toNat (item.y + estimateItemHeight item + 60)
      else cols)
    init

/-- The best-column loop: smallest bottom, earliest column on ties. -/
def bestColumn (cols : List Int) : Nat × Int :=
  (List.range cols.length).foldl
    (fun best col =>
      if cols.getD col 0 < best.2 then (col, cols.getD col 0) else best)
    (0, cols.getD 0 0)

/-- The overflow rescue loop: first column whose bottom still fits. -/
def firstFittingColumn (cols : List Int) (h limit : Int) :
    Option (Nat × Int) :=
  (List.range cols.length).findSome?
    (fun col =>
      if cols.getD col 0 + h ≤ limit then some (col, cols.getD col 0)
      else none)

/-- `findPositionInZone`: generic column packing. Filters candidates by
geometric containment only (no `type` test). -/
def findPositionInZone (newItem : Item) (existingItems : List Item)
    (zoneConfig : Zone) : Int × Int :=
  let startX := zoneConfig.x + 60
  let startY := zoneConfig.y + 60
  let maxColumns : Nat := ((zoneConfig.width - 120).fdiv 580).toNat
  let zoneItems := existingItems.filter (inZone zoneConfig)
  let newItemHeight := estimateItemHeight newItem
  let columns := fillColumns startX maxColumns zoneItems
    (List.replicate maxColumns startY)
  let best := bestColumn columns
  let x := startX + (best.1 : Int) * 580
  let y := best.2
  if y + newItemHeight > zoneConfig.y + zoneConfig.height then
    match firstFittingColumn columns newItemHeight
        (zoneConfig.y + zoneConfig.height) with
    | some (col, v) => (startX + (col : Int) * 580, v)
    | none => (startX, startY)
  else (x, y)

/-- `findTaskZonePosition`: task-zone column packing. Filters candidates by
geometric containment AND `type === "todo"`; on overflow with no fitting
column it keeps the best-column position (no top-of-zone fallback). -/
def findTaskZonePosition (newItem : Item) (existingItems : List Item) :
    Int × Int :=
  let startX := TASK_ZONE.x + 60
  let startY := TASK_ZONE.y + 60
  let maxColumns : Nat := 3
  let taskZoneItems := existingItems.filter
    (fun item => inZone TASK_ZONE item && item.type == "todo")
  let newItemHeight := estimateItemHeight newItem
  let columns := fillColumns startX maxColumns taskZoneItems
    (List.replicate maxColumns startY)
  let best := bestColumn columns
  let x := startX + (best.1 : Int) * 580
  let y := best.2
  if y + newItemHeight > TASK_ZONE.y + TASK_ZONE.height then
    match firstFittingColumn columns newItemHeight
        (TASK_ZONE.y + TASK_ZONE.height) with
    | some (col, v) => (startX + (col : Int) * 580, v)
    | none => (x, y)
  else (x, y)

/-- Row-major enumeration of an `R × C` grid's cells, mirroring the nested
`for (row...) for (col...)` scan order of the grid-slot packers. -/
def rowMajorCells (maxRows maxCols : Nat) : List (Nat × Nat) :=
  (List.range maxRows).flatMap
    (fun r => (List.range maxCols).map (fun c => (r, c)))

/-- Occupancy of one doctor's-notes grid cell: the `forEach` in the source
sets `grid[row][col] = true` for each candidate item bucketed (after the
in-bounds test) by floor division of its padding-relative offset; reading a
cell therefore asks whether some candidate bucketed to it. -/
def noteCellOccupied (items : List Item) (row col : Nat) : Bool :=
  items.any
    (fun item =>
      (item.x - DOCTORS_NOTE_ZONE.x - 50).fdiv 470 == (col : Int) &&
      (item.y - DOCTORS_NOTE_ZONE.y - 50).fdiv 620 == (row : Int))

/-- `findDoctorsNotePosition`: grid-slot packing in the doctor's-notes zone
(padding 50, rowHeight 620, colWidth 470), filtering candidates by geometric
containment AND `type === "doctor-note"`; first free cell in row-major order,
else vertical stacking below the existing notes. -/
def findDoctorsNotePosition (newItem : Item) (existingItems : List Item) :
    Int × Int :=
  let noteZoneItems := existingItems.filter
    (fun item => inZone DOCTORS_NOTE_ZONE item && item.type == "doctor-note")
  let maxCols : Nat := (DOCTORS_NOTE_ZONE.width.fdiv 470).toNat
  let maxRows : Nat := (DOCTORS_NOTE_ZONE.height.fdiv 620).toNat
  match (rowMajorCells maxRows maxCols).find?
      (fun rc => !noteCellOccupied noteZoneItems rc.1 rc.2) with
  | some (row, col) =>
      (DOCTORS_NOTE_ZONE.x + (col : Int) * 470 + 50,
       DOCTORS_NOTE_ZONE.y + (row : Int) * 620 + 50)
  | none =>
      (DOCTORS_NOTE_ZONE.x + 50,
       DOCTORS_NOTE_ZONE.y + 50 + (noteZoneItems.length : Int) * 620)

/-- The retrieved-data zone's placement categories. -/
def isRetrievedDataKind (item : Item) : Bool :=
  item.type == "ehr-data" || item.type == "lab-result" ||
  item.type == "patient-data" || item.type == "clinical-data"

/-- Occupancy of one retrieved-data grid cell (col bucketed without padding
offset, row bucketed relative to a 60px top offset, per the source). -/
def retrievedCellOccupied (items : List Item) (row col : Nat) : Bool :=
  items.any
    (fun item =>
      (item.x - RETRIEVED_DATA_ZONE.x).fdiv 560 == (col : Int) &&
      (item.y - RETRIEVED_DATA_ZONE.y - 60).fdiv 490 == (row : Int))

/-- `findRetrievedDataZonePosition`: grid-slot packing in the retrieved-data
zone (padding 60, rowHeight 490, colWidth 560), filtering candidates by
geometric containment AND the EHR/lab/patient/clinical placement kinds. -/
def findRetrievedDataZonePosition (newItem : Item)
    (existingItems : List Item) : Int × Int :=
  let retrievedDataZoneItems := existingItems.filter
    (fun item => inZone RETRIEVED_DATA_ZONE item && isRetrievedDataKind item)
  let maxCols : Nat := (RETRIEVED_DATA_ZONE.width.fdiv 560).toNat
  let maxRows : Nat := (RETRIEVED_DATA_ZONE.height.fdiv 490).toNat
  match (rowMajorCells maxRows maxCols).find?
      (fun rc => !retrievedCellOccupied retrievedDataZoneItems rc.1 rc.2) with
  | some (row, col) =>
      (RETRIEVED_DATA_ZONE.x + (col : Int) * 560 + 60,
       RETRIEVED_DATA_ZONE.y + (row : Int) * 490 + 60)
  | none =>
      (RETRIEVED_DATA_ZONE.x + 60,
       RETRIEVED_DATA_ZONE.y + 60 +
         (retrievedDataZoneItems.length : Int) * (490 + 60))

/-! ## Store, broadcast registry, session middleware -/

/-- The per-session item store: an association keyed by session id (the
in-memory `Map`; the Redis branch keys records by the same per-session key
`boardItems:sessionId`, so the keying structure is identical). -/
abbrev Store := List (String × List Item)

def storeGet (st : Store) (sessionId : String) : Option (List Item) :=
  (st.find? (fun p => p.1 == sessionId)).map Prod.snd

def storeSet (st : Store) (sessionId : String) (items : List Item) : Store :=
  if (st.find? (fun p => p.1 == sessionId)).isSome then
    st.map (fun p => if p.1 == sessionId then (sessionId, items) else p)
  else (sessionId, items) :: st

/-- `loadStaticItems` reads `data/boardItems.json`; we abstract the file
contents as a parameter, `none` meaning the file is unreadable (the catch
branch returns `[]`). -/
def loadStaticItems (file : Option (List Item)) : List Item :=
  file.getD []

/-- `loadBoardItems`: stored record wins; a session with no record is
initialized with the static template, which is persisted and returned. -/
def loadBoardItems (file : Option (List Item)) (st : Store)
    (sessionId : String) : List Item × Store :=
  match storeGet st sessionId with
  | some items => (items, st)
  | none =>
      let staticItems := loadStaticItems file
      (staticItems, storeSet st sessionId staticItems)

/-- `saveBoardItems`. -/
def saveBoardItems (st : Store) (sessionId : String) (items : List Item) :
    Store :=
  storeSet st sessionId items

/-- The SSE registry `sseClientsBySession`: session id to the set of open
viewer connections (connections modelled by opaque handles). -/
abbrev SSEClients := List (String × List String)

def sessionClients (clients : SSEClients) (sessionId : String) :
    List String :=
  ((clients.find? (fun p => p.1 == sessionId)).map Prod.snd).getD []

/-- One write performed by `broadcastSSE`: the target connection and the
event type line written to it (payload opaque). -/
structure SSEWrite where
  client : String
  eventType : String
deriving DecidableEq, Repr

/-- `broadcastSSE`: writes the event to every connection registered for the
given session id, and to no other connection. -/
def broadcastSSE (clients : SSEClients) (sessionId : String)
    (eventType : String) : List SSEWrite :=
  (sessionClients clients sessionId).map (fun c => ⟨c, eventType⟩)

/-- JS `a || b` on optional strings: an absent or empty left operand falls
through to the right operand. -/
def jsOrStr (a b : Option String) : Option String :=
  match a with
  | some s => if s == "" then b else some s
  | none => b

/-- `sessionMiddleware`: resolve the session id from header, query (both
spellings), then body (both spellings); when all are absent or empty the
middleware synthesizes a fresh random id (`uuidv4()`, abstracted as the
`freshId` parameter) and proceeds — it never rejects the request. -/
def sessionMiddleware (header queryCamel querySnake bodyCamel bodySnake :
    Option String) (freshId : String) : String :=
  let sessionId :=
    jsOrStr header (jsOrStr queryCamel (jsOrStr querySnake
      (jsOrStr bodyCamel bodySnake)))
  match sessionId with
  | some s => if s == "" then freshId else s
  | none => freshId

/-! ## Creation endpoints -/

/-- An HTTP-level outcome: a created item with the saved store, or an error
response body (message string) with the store untouched by this handler. -/
inductive HResult (α : Type) where
  | ok (value : α)
  | clientError (message : String)
deriving DecidableEq, Repr

/-- An element of the `todo_items` request array: a plain string or an
object carrying `text` and an optional `status`. -/
inductive TodoItemInput where
  | str (s : String)
  | obj (text : String) (status : Option String)
deriving DecidableEq, Repr

/-- `normalizeStatus` from the todos handler. -/
def normalizeStatus (s : Option String) : String :=
  let low := (s.getD "").toLower
  if low == "todo" || low == "in_progress" || low == "done" then low
  else "todo"

def mapTodoInput (t : TodoItemInput) : TodoEntry :=
  match t with
  | .str s => ⟨s, "todo", none⟩
  | .obj text status => ⟨text, normalizeStatus status, none⟩

/-- `calculateTodoHeight` from the todos handler. -/
def calculateTodoHeight (todos : List TodoEntry) (description : Option String)
    : Int :=
  let descriptionHeight : Int :=
    if (description.getD "") == "" then 0 else 20
  min (max (80 + (todos.length : Int) * 35 + descriptionHeight + 20) 200) 600

/-- Request body of POST /api/todos (fields the handler reads). -/
structure TodoRequest where
  title : Option String
  description : Option String
  todo_items : Option (List TodoItemInput)
  x : Option Int
  y : Option Int
deriving DecidableEq, Repr

/-- POST /api/todos: validate, compute the dynamic height, place (explicit
coordinates win, otherwise generic column packing over TASK_ZONE), append
and save. `freshId` abstracts the generated item id. -/
def createTodo (sessionId : String) (body : TodoRequest) (freshId : String)
    (file : Option (List Item)) (st : Store) :
    HResult (Item × Store) :=
  match body.title, body.todo_items with
  | some title, some todoItems =>
    if title == "" then
      .clientError "title (string) and todo_items (array) are required"
    else
      let todos := todoItems.map mapTodoInput
      let dynamicHeight := calculateTodoHeight todos body.description
      let loaded := loadBoardItems file st sessionId
      let existingItems := loaded.1
      let pos : Int × Int :=
        match body.x, body.y with
        | some bx, some by0 => (bx, by0)
        | _, _ =>
            findPositionInZone
              ⟨"", "todo", 0, 0, 420, .num dynamicHeight, none, none⟩
              existingItems TASK_ZONE
      let newItem : Item :=
        ⟨freshId, "todo", pos.1, pos.2, 420, .num dynamicHeight,
          some ⟨title, body.description.getD "", todos⟩, none⟩
      .ok (newItem, saveBoardItems loaded.2 sessionId
        (existingItems ++ [newItem]))
  | _, _ => .clientError "title (string) and todo_items (array) are required"

/-- Request body of POST /api/lab-results. `value` is a JS number or string;
we model the shapes the validation distinguishes (string, number). -/
inductive JVal where
  | vStr (s : String)
  | vNum (n : Int)
deriving DecidableEq, Repr

/-- JS truthiness of an optional string/number field. -/
def truthyVal : Option JVal → Bool
  | none => false
  | some (.vStr s) => s != ""
  | some (.vNum n) => n != 0

def truthyInt : Option Int → Bool
  | none => false
  | some n => n != 0

structure RangeField where
  min : Option Int
  max : Option Int
deriving DecidableEq, Repr

structure LabResultRequest where
  parameter : Option String
  value : Option JVal
  unit : Option String
  status : Option String
  range : Option RangeField
  trend : Option String
  x : Option Int
  y : Option Int
deriving DecidableEq, Repr

def truthyStr : Option String → Bool
  | none => false
  | some s => s != ""

/-- POST /api/lab-results: the three validation gates of the handler, then
placement (explicit coordinates win, otherwise generic column packing over
RETRIEVED_DATA_ZONE), append and save. -/
def createLabResult (sessionId : String) (body : LabResultRequest)
    (freshId : String) (file : Option (List Item)) (st : Store) :
    HResult (Item × Store) :=
  if !(truthyStr body.parameter && truthyVal body.value &&
       truthyStr body.unit && truthyStr body.status &&
       body.range.isSome) then
    .clientError "parameter, value, unit, status, and range are required"
  else
    let status := body.status.getD ""
    if !(status == "optimal" || status == "warning" || status == "critical")
    then
      .clientError "status must be one of: optimal, warning, critical"
    else
      let range := body.range.getD ⟨none, none⟩
      if !(truthyInt range.min && truthyInt range.max &&
           decide (range.min.getD 0 < range.max.getD 0)) then
        .clientError "range must have valid min and max values where min < max"
      else
        let loaded := loadBoardItems file st sessionId
        let existingItems := loaded.1
        let pos : Int × Int :=
          match body.x, body.y with
          | some bx, some by0 => (bx, by0)
          | _, _ =>
              findPositionInZone
                ⟨"", "lab-result", 0, 0, 400, .num 280, none, none⟩
                existingItems RETRIEVED_DATA_ZONE
        let newItem : Item :=
          ⟨freshId, "lab-result", pos.1, pos.2, 400, .num 280, none, none⟩
        .ok (newItem, saveBoardItems loaded.2 sessionId
          (existingItems ++ [newItem]))

structure EhrDataRequest where
  title : Option String
  content : Option String
  dataType : Option String
  source : Option String
  x : Option Int
  y : Option Int
  width : Option Int
  height : Option Int
deriving DecidableEq, Repr

/-- POST /api/ehr-data: validate title/content, place (explicit coordinates
win, otherwise generic column packing over RETRIEVED_DATA_ZONE), append and
save. -/
def createEhrData (sessionId : String) (body : EhrDataRequest)
    (freshId : String) (file : Option (List Item)) (st : Store) :
    HResult (Item × Store) :=
  if !(truthyStr body.title && truthyStr body.content) then
    .clientError "Title and content are required for EHR data items"
  else
    let loaded := loadBoardItems file st sessionId
    let existingItems := loaded.1
    let w := if truthyInt body.width then body.width.getD 0 else 400
    let h := if truthyInt body.height then body.height.getD 0 else 300
    let pos : Int × Int :=
      match body.x, body.y with
      | some bx, some by0 => (bx, by0)
      | _, _ =>
          findPositionInZone ⟨"", "ehr-data", 0, 0, w, .num h, none, none⟩
            existingItems RETRIEVED_DATA_ZONE
    let newItem : Item :=
      ⟨freshId, "ehr-data", pos.1, pos.2, w, .num h, none, none⟩
    .ok (newItem, saveBoardItems loaded.2 sessionId
      (existingItems ++ [newItem]))

structure DoctorNoteRequest where
  content : Option String
  x : Option Int
  y : Option Int
  width : Option Int
  height : Option Int
deriving DecidableEq, Repr

/-- POST /api/doctor-notes: builds the note with the supplied-or-default
coordinates, then unconditionally recomputes the position with the generic
column packer over DOCTORS_NOTE_ZONE and overwrites `x`/`y` with it, so a
caller-supplied position never survives. -/
def createDoctorNote (sessionId : String) (body : DoctorNoteRequest)
    (freshId : String) (file : Option (List Item)) (st : Store) :
    HResult (Item × Store) :=
  let noteX := body.x.getD 4300
  let noteY := body.y.getD (-2200)
  let noteWidth := if truthyInt body.width then body.width.getD 0 else 450
  let noteHeight := if truthyInt body.height then body.height.getD 0 else 600
  let noteItem : Item :=
    ⟨freshId, "doctor-note", noteX, noteY, noteWidth, .num noteHeight,
      none, none⟩
  let loaded := loadBoardItems file st sessionId
  let items := loaded.1
  let position := findPositionInZone noteItem items DOCTORS_NOTE_ZONE
  let placed : Item :=
    { noteItem with x := position.1, y := position.2 }
  .ok (placed, saveBoardItems loaded.2 sessionId (items ++ [placed]))

/-- The `(x, y)` resolution of POST /api/agents: explicit coordinates win;
otherwise a named zone, when recognized, selects the packing zone; otherwise
TASK_ZONE. (`dynamicHeight` abstracts the handler's content-length height
estimate, which is irrelevant to the explicit-coordinates branch.) -/
def agentsResolvePosition (x y : Option Int) (zone : Option String)
    (dynamicHeight : Int) (existingItems : List Item) : Int × Int :=
  match x, y with
  | some bx, some by0 => (bx, by0)
  | _, _ =>
      let tempItem : Item :=
        ⟨"", "agent", 0, 0, 520, .num dynamicHeight, none, none⟩
      let zoneConfig : Option Zone :=
        match zone with
        | some z =>
            if z == "task-management-zone" then some TASK_ZONE
            else if z == "retrieved-data-zone" then some RETRIEVED_DATA_ZONE
            else if z == "doctors-note-zone" then some DOCTORS_NOTE_ZONE
            else none
        | none => none
      match zoneConfig with
      | some zc => findPositionInZone tempItem existingItems zc
      | none => findPositionInZone tempItem existingItems TASK_ZONE

/-- The `(x, y)` resolution of POST /api/enhanced-todo: explicit coordinates
win; otherwise generic column packing over TASK_ZONE with the todo payload
carried on the temp item. -/
def enhancedTodoResolvePosition (x y : Option Int) (width : Int)
    (height : JHeight) (todoData : TodoData) (existingItems : List Item) :
    Int × Int :=
  match x, y with
  | some bx, some by0 => (bx, by0)
  | _, _ =>
      findPositionInZone ⟨"", "todo", 0, 0, width, height, some todoData, none⟩
        existingItems TASK_ZONE

/-- The `x`/`y` defaulting of POST /api/board-items: `x || random` — a falsy
(absent or zero) coordinate falls back to the random default (`randX`,
`randY` abstract `Math.random()*8000+100` and `Math.random()*7000+100`). -/
def boardItemCoords (x y : Option Int) (randX randY : Int) : Int × Int :=
  ((if truthyInt x then x.getD 0 else randX),
   (if truthyInt y then y.getD 0 else randY))

/-! ## Lock-guarded mutation handlers -/

/-- `sessionLocks`: the set of session ids whose lock marker is held. -/
abbrev Locks := List String

/-- `acquireLock` completes only from a state where the session's marker is
free, then sets it (the busy-wait loop is modelled in the interleaving
machine below; here handlers are entered at the point the wait finished). -/
def acquireLock (locks : Locks) (sessionId : String) : Locks :=
  sessionId :: locks

/-- `releaseLock` deletes the marker. -/
def releaseLock (locks : Locks) (sessionId : String) : Locks :=
  locks.filter (fun s => s != sessionId)

def lockHeld (locks : Locks) (sessionId : String) : Bool :=
  locks.contains sessionId

/-- Fault-injection points of a lock-guarded handler: the store read and the
store write can throw (rejected promise), which lands in the catch block. -/
structure Faults where
  loadThrows : Bool
  saveThrows : Bool
deriving DecidableEq, Repr

/-- Outcome of a lock-guarded handler run. -/
inductive MResp where
  | ok
  | notFound
  | badRequest
  | serverError
deriving DecidableEq, Repr

/-- DELETE /api/board-items/:id — acquire, load, filter, 404 when nothing was
removed (releasing first), else save and release; the catch block releases on
a thrown load/save. Returns (store, locks, response). -/
def deleteBoardItemHandler (file : Option (List Item)) (st : Store)
    (locks : Locks) (sessionId idv : String) (f : Faults) :
    Store × Locks × MResp :=
  let locks := acquireLock locks sessionId
  if f.loadThrows then (st, releaseLock locks sessionId, .serverError)
  else
    let loaded := loadBoardItems file st sessionId
    let items := loaded.1
    let filteredItems := items.filter (fun it => it.id != idv)
    if filteredItems.length = items.length then
      (loaded.2, releaseLock locks sessionId, .notFound)
    else if f.saveThrows then
      (loaded.2, releaseLock locks sessionId, .serverError)
    else
      (saveBoardItems loaded.2 sessionId filteredItems,
       releaseLock locks sessionId, .ok)

/-- POST /api/board-items/batch-delete — the missing-array 400 happens before
the lock is touched; then acquire, load, filter by membership in the id set,
save, release; the catch block releases on a thrown load/save. -/
def batchDeleteHandler (file : Option (List Item)) (st : Store)
    (locks : Locks) (sessionId : String) (itemIds : Option (List String))
    (f : Faults) : Store × Locks × MResp :=
  match itemIds with
  | none => (st, locks, .badRequest)
  | some ids =>
      let locks := acquireLock locks sessionId
      if f.loadThrows then (st, releaseLock locks sessionId, .serverError)
      else
        let loaded := loadBoardItems file st sessionId
        let items := loaded.1
        let filteredItems := items.filter (fun it => !(ids.contains it.id))
        if f.saveThrows then
          (loaded.2, releaseLock locks sessionId, .serverError)
        else
          (saveBoardItems loaded.2 sessionId filteredItems,
           releaseLock locks sessionId, .ok)

/-- POST /api/board-items/sync — the missing-array 400 happens before the
lock is touched; then acquire, save the posted list, release; the catch
block releases on a thrown save. -/
def syncHandler (st : Store) (locks : Locks) (sessionId : String)
    (items : Option (List Item)) (f : Faults) : Store × Locks × MResp :=
  match items with
  | none => (st, locks, .badRequest)
  | some its =>
      let locks := acquireLock locks sessionId
      if f.saveThrows then (st, releaseLock locks sessionId, .serverError)
      else
        (saveBoardItems st sessionId its, releaseLock locks sessionId, .ok)

/-! ## Interleaving machine for two concurrent single-item deletes

Each request is the DELETE handler cut at its `await` points: the busy-wait
acquire, the store load, and the filter-and-save step (between acquire and
load, and after save, the only shared state touched is the lock itself). A
schedule chooses which request advances at each point; a request whose
acquire finds the lock held spins (no state change), matching the 10ms
`setTimeout` polling loop of `acquireLock`. -/

inductive DPhase where
  | waiting
  | acquired
  | loaded (snapshot : List Item)
  | done
deriving DecidableEq, Repr

structure DelRace where
  items : List Item
  lock : Bool
  p1 : DPhase
  p2 : DPhase
deriving DecidableEq, Repr

/-- Advance one request by one atomic step. -/
def dStep (delId : String) (items : List Item) (lock : Bool) (p : DPhase) :
    List Item × Bool × DPhase :=
  match p with
  | .waiting => if lock then (items, lock, .waiting) else (items, true, .acquired)
  | .acquired => (items, lock, .loaded items)
  | .loaded snapshot =>
      let filtered := snapshot.filter (fun it => it.id != delId)
      if filtered.length = snapshot.length then (items, false, .done)
      else (filtered, false, .done)
  | .done => (items, lock, .done)

/-- Advance the chosen request of the two-request race. -/
def raceStep (idA idB : String) (s : DelRace) (first : Bool) : DelRace :=
  if first then
    let r := dStep idA s.items s.lock s.p1
    ⟨r.1, r.2.1, r.2.2, s.p2⟩
  else
    let r := dStep idB s.items s.lock s.p2
    ⟨r.1, r.2.1, s.p1, r.2.2⟩

/-- Run a schedule (list of choices) from a state. -/
def raceRun (idA idB : String) (s : DelRace) : List Bool → DelRace
  | [] => s
  | k :: ks => raceRun idA idB (raceStep idA idB s k) ks

/-- Initial state: both requests arrive with the lock free. -/
def raceInit (items : List Item) : DelRace :=
  ⟨items, false, .waiting, .waiting⟩

/-! ## Further definitions used by the statements -/

/-- GET /api/board-items: returns the session's items and their count. -/
def getBoardItemsHandler (file : Option (List Item)) (st : Store)
    (sessionId : String) : (List Item × Nat) × Store :=
  let loaded := loadBoardItems file st sessionId
  ((loaded.1, loaded.1.length), loaded.2)

/-- The exact acceptance condition of the lab-results handler's three
validation gates (JS truthiness included). -/
def labResultCodeValid (body : LabResultRequest) : Bool :=
  (truthyStr body.parameter && truthyVal body.value &&
    truthyStr body.unit && truthyStr body.status && body.range.isSome) &&
  (body.status.getD "" == "optimal" || body.status.getD "" == "warning" ||
    body.status.getD "" == "critical") &&
  (truthyInt (body.range.getD ⟨none, none⟩).min &&
    truthyInt (body.range.getD ⟨none, none⟩).max &&
    decide ((body.range.getD ⟨none, none⟩).min.getD 0 <
      (body.range.getD ⟨none, none⟩).max.getD 0))

/-- The claim's acceptance condition for lab-results: the five fields are
present (absence is the only failure mode for them), the status is in the
enum, and range.min is strictly less than range.max. -/
def labResultSpecValid (body : LabResultRequest) : Bool :=
  body.parameter.isSome && body.value.isSome && body.unit.isSome &&
  body.status.isSome && body.range.isSome &&
  (body.status.getD "" == "optimal" || body.status.getD "" == "warning" ||
    body.status.getD "" == "critical") &&
  (body.range.getD ⟨none, none⟩).min.isSome &&
  (body.range.getD ⟨none, none⟩).max.isSome &&
  decide ((body.range.getD ⟨none, none⟩).min.getD 0 <
    (body.range.getD ⟨none, none⟩).max.getD 0)

/-- Spec-side description of grid-slot packing: cell `(r, c)` is in bounds,
unoccupied, and every cell strictly earlier in row-major order (smaller row,
or same row and smaller column) is occupied. -/
def firstFreeCellSpec (occ : Nat → Nat → Bool) (R C r c : Nat) : Prop :=
  r < R ∧ c < C ∧ occ r c = false ∧
  ∀ r2 c2, r2 < R → c2 < C → (r2 < r ∨ (r2 = r ∧ c2 < c)) →
    occ r2 c2 = true

/-- A request is inside its critical section (holds the lock). -/
def inCrit : DPhase → Bool
  | .acquired => true
  | .loaded _ => true
  | _ => false

def isDone : DPhase → Bool
  | .done => true
  | _ => false

/-- The store contents as a function of which deletes have committed. -/
def donePred (d1 d2 : Bool) (idA idB : String) (it : Item) : Bool :=
  (!d1 || it.id != idA) && (!d2 || it.id != idB)

/-- Inductive invariant of the two-delete race: the lock marker tracks the
critical sections, at most one request is inside, the store is the initial
list minus the committed deletes, and a loaded snapshot is current. -/
def RaceInv (L0 : List Item) (idA idB : String) (s : DelRace) : Prop :=
  s.lock = (inCrit s.p1 || inCrit s.p2) ∧
  ¬(inCrit s.p1 = true ∧ inCrit s.p2 = true) ∧
  s.items = L0.filter (donePred (isDone s.p1) (isDone s.p2) idA idB) ∧
  (∀ snap, s.p1 = .loaded snap → snap = s.items) ∧
  (∀ snap, s.p2 = .loaded snap → snap = s.items)

/-! ## Concrete fixtures for witnesses and counterexamples -/

/-- A todo template item as built by the todos handler for packing. -/
def todoTemp : Item := ⟨"", "todo", 0, 0, 420, .num 200, none, none⟩

/-- An agent item sitting inside the task zone's first column. -/
def agentInTask : Item := ⟨"a1", "agent", 4260, 60, 520, .num 400, none, none⟩

/-- A doctor-note shaped item (dimensions the doctor-notes handler uses). -/
def noteTemp : Item := ⟨"n", "doctor-note", 4300, -2200, 450, .num 600,
  none, none⟩

/-- A minimal static-template item. -/
def demoItem : Item := ⟨"static-1", "text", 0, 0, 200, .num 100, none, none⟩

/-- Two pre-existing items of one session, for the delete-race scenarios. -/
def demoA : Item := ⟨"A", "text", 0, 0, 200, .num 100, none, none⟩
def demoB : Item := ⟨"B", "text", 300, 0, 200, .num 100, none, none⟩

/-- A minimal valid todos request. -/
def demoTodoBody : TodoRequest := ⟨some "T", none, some [.str "a"], none, none⟩

/-- An SSE registry with one viewer on each of two sessions. -/
def demoClients : SSEClients := [("s1", ["c1"]), ("s2", ["c2"])]

/-- A lab-result body whose fields are all present, status in the enum and
min < max, but whose `value` is the number 0 (falsy in JS). -/
def badLabBody : LabResultRequest :=
  ⟨some "Glucose", some (.vNum 0), some "mgdl", some "optimal",
    some ⟨some 10, some 50⟩, none, none, none⟩

/-- A fully valid lab-result body. -/
def goodLabBody : LabResultRequest :=
  ⟨some "Glucose", some (.vNum 95), some "mgdl", some "optimal",
    some ⟨some 70, some 100⟩, none, none, none⟩

/-! ## Store lemmas -/

lemma find?_map_overwrite (st : Store) (s1 s2 : String) (l : List Item)
    (h : s1 ≠ s2) :
    (st.map (fun p => if p.1 == s1 then (s1, l) else p)).find?
        (fun p => p.1 == s2) =
      st.find? (fun p => p.1 == s2) := by
  induction st with
  | nil => rfl
  | cons a t ih =>
    rw [List.map_cons]
    by_cases ha : a.1 = s1
    · have hmap : (if a.1 == s1 then (s1, l) else a) = (s1, l) := by
        simp [ha]
      rw [hmap, List.find?_cons_of_neg _ (by simp [h]),
        List.find?_cons_of_neg _ (by simp [ha]; exact h)]
      exact ih
    · have hmap : (if a.1 == s1 then (s1, l) else a) = a := by
        simp [ha]
      rw [hmap]
      by_cases hb : a.1 = s2
      · rw [List.find?_cons_of_pos _ (by simp [hb]),
          List.find?_cons_of_pos _ (by simp [hb])]
      · rw [List.find?_cons_of_neg _ (by simp [hb]),
          List.find?_cons_of_neg _ (by simp [hb])]
        exact ih

lemma find?_map_self (st : Store) (s1 : String) (l : List Item)
    (hsome : (st.find? (fun p => p.1 == s1)).isSome = true) :
    (st.map (fun p => if p.1 == s1 then (s1, l) else p)).find?
        (fun p => p.1 == s1) = some (s1, l) := by
  induction st with
  | nil => simp at hsome
  | cons a t ih =>
    rw [List.map_cons]
    by_cases ha : a.1 = s1
    · have hmap : (if a.1 == s1 then (s1, l) else a) = (s1, l) := by
        simp [ha]
      rw [hmap, List.find?_cons_of_pos _ (by simp)]
    · have hmap : (if a.1 == s1 then (s1, l) else a) = a := by
        simp [ha]
      rw [hmap, List.find?_cons_of_neg _ (by simp [ha])]
      apply ih
      rw [List.find?_cons_of_neg _ (by simp [ha])] at hsome
      exact hsome

lemma storeGet_storeSet_ne (st : Store) (s1 s2 : String) (l : List Item)
    (h : s1 ≠ s2) : storeGet (storeSet st s1 l) s2 = storeGet st s2 := by
  unfold storeGet storeSet
  split
  · rw [find?_map_overwrite st s1 s2 l h]
  · rw [List.find?_cons_of_neg _ (by simp [h])]

lemma storeGet_storeSet_self (st : Store) (s1 : String) (l : List Item) :
    storeGet (storeSet st s1 l) s1 = some l := by
  unfold storeGet storeSet
  split
  · rename_i hsome
    rw [find?_map_self st s1 l hsome]
    rfl
  · rw [List.find?_cons_of_pos _ (by simp)]
    rfl

lemma loadBoardItems_congr (file : Option (List Item)) (st1 st2 : Store)
    (sid : String) (h : storeGet st1 sid = storeGet st2 sid) :
    (loadBoardItems file st1 sid).1 = (loadBoardItems file st2 sid).1 := by
  unfold loadBoardItems
  rw [h]
  cases hs : storeGet st2 sid <;> rfl

lemma storeGet_load_snd_ne (file : Option (List Item)) (st : Store)
    (sid1 sid2 : String) (h : sid1 ≠ sid2) :
    storeGet (loadBoardItems file st sid1).2 sid2 = storeGet st sid2 := by
  unfold loadBoardItems
  cases hs : storeGet st sid1 with
  | some items => rfl
  | none => exact storeGet_storeSet_ne st sid1 sid2 _ h

/-- C1: Session isolation. For distinct sessions S1 and S2: an item creation
under S1 (represented by the todos endpoint) leaves the item list that a
read under S2 returns unchanged, so the created item never appears there;
and a broadcast fired for S1 writes only to connections registered for S1 —
a connection registered for S2 but not S1 receives nothing. -/
theorem session_isolation
    (sid1 sid2 : String) (h : sid1 ≠ sid2)
    (body : TodoRequest) (freshId : String) (file : Option (List Item))
    (st : Store) (clients : SSEClients) (ev : String) :
    (∀ item st2, createTodo sid1 body freshId file st = .ok (item, st2) →
      (loadBoardItems file st2 sid2).1 = (loadBoardItems file st sid2).1) ∧
    (∀ w ∈ broadcastSSE clients sid1 ev,
      w.client ∈ sessionClients clients sid1) ∧
    (∀ c, c ∈ sessionClients clients sid2 →
      c ∉ sessionClients clients sid1 →
      (⟨c, ev⟩ : SSEWrite) ∉ broadcastSSE clients sid1 ev) := by
  refine ⟨?_, ?_, ?_⟩
  · intro item st2 hok
    unfold createTodo at hok
    split at hok
    · split at hok
      · exact absurd hok (by simp)
      · simp only [HResult.ok.injEq, Prod.mk.injEq] at hok
        obtain ⟨-, hst2⟩ := hok
        subst hst2
        apply loadBoardItems_congr
        unfold saveBoardItems
        rw [storeGet_storeSet_ne _ sid1 sid2 _ h,
          storeGet_load_snd_ne file st sid1 sid2 h]
    · exact absurd hok (by simp)
  · intro w hw
    unfold broadcastSSE at hw
    rw [List.mem_map] at hw
    obtain ⟨c, hc, rfl⟩ := hw
    exact hc
  · intro c hc2 hc1 hmem
    unfold broadcastSSE at hmem
    rw [List.mem_map] at hmem
    obtain ⟨c2, hc2mem, heq⟩ := hmem
    cases heq
    exact hc1 hc2mem

/-- Witness for C1 at concrete sessions, registry and request. -/
theorem session_isolation_witness :
    ("s1" : String) ≠ "s2" ∧
    ((∀ item st2,
        createTodo "s1" demoTodoBody "i" (some [demoItem]) [] =
          .ok (item, st2) →
        (loadBoardItems (some [demoItem]) st2 "s2").1 =
          (loadBoardItems (some [demoItem]) [] "s2").1) ∧
      (∀ w ∈ broadcastSSE demoClients "s1" "new-item",
        w.client ∈ sessionClients demoClients "s1") ∧
      (∀ c, c ∈ sessionClients demoClients "s2" →
        c ∉ sessionClients demoClients "s1" →
        (⟨c, "new-item"⟩ : SSEWrite) ∉
          broadcastSSE demoClients "s1" "new-item")) :=
  ⟨by decide, session_isolation "s1" "s2" (by decide) demoTodoBody "i"
    (some [demoItem]) [] demoClients "new-item"⟩

/-- C2 (code behavior at the failing input): a request carrying no session
id in the header, either query spelling, or either body spelling is not
rejected — the middleware proceeds with a freshly synthesized random id
(lenient mode), contradicting the specified strict mode. -/
theorem sessionMiddleware_synthesizes_when_absent :
    ∀ freshId : String,
      sessionMiddleware none none none none none freshId = freshId := by
  intro freshId
  rfl

/-- C10: a session id with no stored record is initialized from the static
template file: the load returns the template items, persists them under the
session id, and the first GET reports their count — non-zero whenever the
file was readable and non-empty. -/
theorem fresh_session_initialized_from_template
    (file : Option (List Item)) (st : Store) (sid : String)
    (hfresh : storeGet st sid = none) :
    (loadBoardItems file st sid).1 = loadStaticItems file ∧
    storeGet (loadBoardItems file st sid).2 sid =
      some (loadStaticItems file) ∧
    (getBoardItemsHandler file st sid).1.2 = (loadStaticItems file).length ∧
    (∀ l, file = some l → l ≠ [] →
      (getBoardItemsHandler file st sid).1.2 ≠ 0) := by
  unfold getBoardItemsHandler loadBoardItems
  rw [hfresh]
  refine ⟨rfl, storeGet_storeSet_self st sid _, rfl, ?_⟩
  intro l hl hne
  subst hl
  simpa [loadStaticItems, List.length_eq_zero] using hne

/-- Witness for C10: a brand-new session over an empty store and a readable
one-item template file reports count 1. -/
theorem fresh_session_initialized_from_template_witness :
    storeGet [] "s" = none ∧
    ((loadBoardItems (some [demoItem]) [] "s").1 =
        loadStaticItems (some [demoItem]) ∧
      storeGet (loadBoardItems (some [demoItem]) [] "s").2 "s" =
        some (loadStaticItems (some [demoItem])) ∧
      (getBoardItemsHandler (some [demoItem]) [] "s").1.2 =
        (loadStaticItems (some [demoItem])).length ∧
      (∀ l, some [demoItem] = some l → l ≠ [] →
        (getBoardItemsHandler (some [demoItem]) [] "s").1.2 ≠ 0)) :=
  ⟨rfl, fresh_session_initialized_from_template (some [demoItem]) [] "s" rfl⟩

lemma lockHeld_release (locks : Locks) (sid : String) :
    lockHeld (releaseLock locks sid) sid = false := by
  unfold lockHeld releaseLock
  induction locks with
  | nil => rfl
  | cons a t ih =>
    rw [List.filter_cons]
    by_cases ha : a = sid
    · rw [if_neg (by simp [ha])]
      exact ih
    · rw [if_pos (by simp [ha])]
      have hne : (sid == a) = false := by
        simp
        exact fun e => ha e.symm
      simp only [List.contains_cons]
      rw [Bool.or_eq_false_iff]
      exact ⟨by simp [Ne.symm ha], ih⟩

/-- C9: every lock-guarded handler (single delete, batch delete, sync)
releases the per-session lock on every exit path — success, not-found,
rejected body, and thrown load/save errors — so no lock marker remains held
for the session after the request completes. -/
theorem lock_released_on_every_path
    (file : Option (List Item)) (st : Store) (locks : Locks)
    (sid idv : String) (f : Faults) (itemIds : Option (List String))
    (items : Option (List Item))
    (hfree : lockHeld locks sid = false) :
    lockHeld (deleteBoardItemHandler file st locks sid idv f).2.1 sid
        = false ∧
    lockHeld (batchDeleteHandler file st locks sid itemIds f).2.1 sid
        = false ∧
    lockHeld (syncHandler st locks sid items f).2.1 sid = false := by
  refine ⟨?_, ?_, ?_⟩
  · simp only [deleteBoardItemHandler]
    repeat' split
    all_goals exact lockHeld_release _ _
  · simp only [batchDeleteHandler]
    repeat' split
    all_goals first
      | exact lockHeld_release _ _
      | exact hfree
  · simp only [syncHandler]
    repeat' split
    all_goals first
      | exact lockHeld_release _ _
      | exact hfree

/-- Witness for C9 at a concrete store, session and fault choice. -/
theorem lock_released_on_every_path_witness :
    lockHeld [] "s" = false ∧
    (lockHeld
        (deleteBoardItemHandler (some [demoItem]) [] [] "s" "A"
          ⟨false, true⟩).2.1 "s" = false ∧
      lockHeld
        (batchDeleteHandler (some [demoItem]) [] [] "s" (some ["A"])
          ⟨false, true⟩).2.1 "s" = false ∧
      lockHeld (syncHandler [] [] "s" (some []) ⟨false, true⟩).2.1 "s"
        = false) :=
  ⟨rfl, lock_released_on_every_path (some [demoItem]) [] [] "s" "A"
    ⟨false, true⟩ (some ["A"]) (some []) rfl⟩

lemma filter_ne_length_ne (L : List Item) (A : String)
    (hA : A ∈ L.map Item.id) :
    (L.filter (fun it => it.id != A)).length ≠ L.length := by
  intro hlen
  have heq : L.filter (fun it => it.id != A) = L :=
    (List.filter_sublist L).eq_of_length hlen
  obtain ⟨it0, hmem, hid⟩ := List.mem_map.mp hA
  have : it0 ∈ L.filter (fun it => it.id != A) := heq.symm ▸ hmem
  have := (List.mem_filter.mp this).2
  simp [hid] at this

lemma not_contains_pair (x A B : String) :
    (!([A, B].contains x)) = ((x != A) && (x != B)) := by
  by_cases h1 : x = A <;> by_cases h2 : x = B <;> simp [h1, h2]

/-- C8: batch-deleting two distinct present ids yields the same final item
list for the session as a single delete of A followed by a single delete of
B. -/
theorem batchDelete_eq_sequential
    (file : Option (List Item)) (st : Store) (sid A B : String)
    (hAB : A ≠ B)
    (hA : A ∈ (loadBoardItems file st sid).1.map Item.id)
    (hB : B ∈ (loadBoardItems file st sid).1.map Item.id) :
    storeGet
      (batchDeleteHandler file st [] sid (some [A, B]) ⟨false, false⟩).1
      sid =
    storeGet
      (deleteBoardItemHandler file
        (deleteBoardItemHandler file st [] sid A ⟨false, false⟩).1
        (deleteBoardItemHandler file st [] sid A ⟨false, false⟩).2.1
        sid B ⟨false, false⟩).1 sid := by
  have hload : loadBoardItems file st sid =
      ((loadBoardItems file st sid).1, (loadBoardItems file st sid).2) := rfl
  set L := (loadBoardItems file st sid).1 with hL
  set st1 := (loadBoardItems file st sid).2 with hst1
  -- the first single delete takes the save branch
  have hd1 : deleteBoardItemHandler file st [] sid A ⟨false, false⟩ =
      (saveBoardItems st1 sid (L.filter (fun it => it.id != A)),
        releaseLock (acquireLock [] sid) sid, .ok) := by
    unfold deleteBoardItemHandler
    rw [if_neg (by simp)]
    rw [hload]
    rw [if_neg (filter_ne_length_ne L A hA)]
    rw [if_neg (by simp)]
  rw [hd1]
  -- the second single delete loads the saved list
  have hload2 : loadBoardItems file
      (saveBoardItems st1 sid (L.filter (fun it => it.id != A))) sid =
      (L.filter (fun it => it.id != A),
        saveBoardItems st1 sid (L.filter (fun it => it.id != A))) := by
    unfold loadBoardItems saveBoardItems
    rw [storeGet_storeSet_self]
  have hBmem : B ∈ (L.filter (fun it => it.id != A)).map Item.id := by
    obtain ⟨itB, hmem, hid⟩ := List.mem_map.mp hB
    exact List.mem_map.mpr ⟨itB,
      List.mem_filter.mpr ⟨hmem, by simp [hid]; exact fun e => hAB e.symm⟩,
      hid⟩
  have hd2 : deleteBoardItemHandler file
      (saveBoardItems st1 sid (L.filter (fun it => it.id != A)))
      (releaseLock (acquireLock [] sid) sid) sid B ⟨false, false⟩ =
      (saveBoardItems
          (saveBoardItems st1 sid (L.filter (fun it => it.id != A))) sid
          ((L.filter (fun it => it.id != A)).filter
            (fun it => it.id != B)),
        releaseLock
          (acquireLock (releaseLock (acquireLock [] sid) sid) sid) sid,
        .ok) := by
    unfold deleteBoardItemHandler
    rw [if_neg (by simp)]
    rw [hload2]
    rw [if_neg (filter_ne_length_ne _ B hBmem)]
    rw [if_neg (by simp)]
  rw [hd2]
  -- the batch delete in one critical section
  have hbatch : batchDeleteHandler file st [] sid (some [A, B])
      ⟨false, false⟩ =
      (saveBoardItems st1 sid
          (L.filter (fun it => !([A, B].contains it.id))),
        releaseLock (acquireLock [] sid) sid, .ok) := rfl
  rw [hbatch]
  -- both stores hold the same final list under the session key
  unfold saveBoardItems
  rw [storeGet_storeSet_self, storeGet_storeSet_self]
  rw [List.filter_filter]
  have : ∀ x ∈ L, (!([A, B].contains x.id)) =
      ((x.id != B) && (x.id != A)) := by
    intro x _
    rw [not_contains_pair]
    exact Bool.and_comm _ _
  rw [List.filter_congr this]

/-- Witness for C8 on a two-item session list. -/
theorem batchDelete_eq_sequential_witness :
    ("A" : String) ≠ "B" ∧
    "A" ∈ (loadBoardItems (some [demoA, demoB]) [] "s").1.map Item.id ∧
    "B" ∈ (loadBoardItems (some [demoA, demoB]) [] "s").1.map Item.id ∧
    storeGet
      (batchDeleteHandler (some [demoA, demoB]) [] [] "s" (some ["A", "B"])
        ⟨false, false⟩).1 "s" =
    storeGet
      (deleteBoardItemHandler (some [demoA, demoB])
        (deleteBoardItemHandler (some [demoA, demoB]) [] [] "s" "A"
          ⟨false, false⟩).1
        (deleteBoardItemHandler (some [demoA, demoB]) [] [] "s" "A"
          ⟨false, false⟩).2.1
        "s" "B" ⟨false, false⟩).1 "s" :=
  ⟨by decide, by decide, by decide,
    batchDelete_eq_sequential (some [demoA, demoB]) [] "s" "A" "B"
      (by decide) (by decide) (by decide)⟩

lemma not_not_eq_true {b : Bool} (h : ¬((!b) = true)) : b = true := by
  cases b
  · exact absurd rfl h
  · rfl

/-- C7 (amended): the lab-results endpoint rejects with a client error
naming the offending fields exactly when a required field is absent or
JS-falsy (empty string, zero number), the status is outside the enum, or
range.min/range.max is absent, zero, or not strictly ordered; on every body
passing those gates the item is created and appended to the session list. -/
theorem labResults_validation
    (sid : String) (body : LabResultRequest) (freshId : String)
    (file : Option (List Item)) (st : Store) :
    (labResultCodeValid body = false →
      ∃ msg ∈ ["parameter, value, unit, status, and range are required",
        "status must be one of: optimal, warning, critical",
        "range must have valid min and max values where min < max"],
        createLabResult sid body freshId file st = .clientError msg) ∧
    (labResultCodeValid body = true →
      createLabResult sid body freshId file st =
        (let existingItems := (loadBoardItems file st sid).1
         let pos : Int × Int :=
           match body.x, body.y with
           | some bx, some by0 => (bx, by0)
           | _, _ =>
               findPositionInZone
                 ⟨"", "lab-result", 0, 0, 400, .num 280, none, none⟩
                 existingItems RETRIEVED_DATA_ZONE
         let newItem : Item :=
           ⟨freshId, "lab-result", pos.1, pos.2, 400, .num 280, none, none⟩
         .ok (newItem, saveBoardItems (loadBoardItems file st sid).2 sid
           (existingItems ++ [newItem])))) := by
  constructor
  · intro hinvalid
    simp only [createLabResult]
    split
    · exact ⟨_, by simp, rfl⟩
    · split
      · exact ⟨_, by simp, rfl⟩
      · split
        · exact ⟨_, by simp, rfl⟩
        · rename_i h1 h2 h3
          have g1 := not_not_eq_true h1
          have g2 := not_not_eq_true h2
          have g3 := not_not_eq_true h3
          have : labResultCodeValid body = true := by
            unfold labResultCodeValid
            rw [g1, g2, g3]
            rfl
          rw [this] at hinvalid
          cases hinvalid
  · intro hvalid
    unfold labResultCodeValid at hvalid
    rw [Bool.and_eq_true, Bool.and_eq_true] at hvalid
    obtain ⟨⟨hg1, hg2⟩, hg3⟩ := hvalid
    simp only [createLabResult]
    rw [if_neg (by rw [hg1]; simp), if_neg (by rw [hg2]; simp),
      if_neg (by rw [hg3]; simp)]

/-- Witness for C7 at a rejected and an accepted concrete body. -/
theorem labResults_validation_witness :
    (labResultCodeValid badLabBody = false ∧
      ∃ msg ∈ ["parameter, value, unit, status, and range are required",
        "status must be one of: optimal, warning, critical",
        "range must have valid min and max values where min < max"],
        createLabResult "s" badLabBody "i" (some []) [] =
          .clientError msg) ∧
    (labResultCodeValid goodLabBody = true ∧
      createLabResult "s" goodLabBody "i" (some []) [] =
        (let existingItems := (loadBoardItems (some []) [] "s").1
         let pos : Int × Int :=
           match goodLabBody.x, goodLabBody.y with
           | some bx, some by0 => (bx, by0)
           | _, _ =>
               findPositionInZone
                 ⟨"", "lab-result", 0, 0, 400, .num 280, none, none⟩
                 existingItems RETRIEVED_DATA_ZONE
         let newItem : Item :=
           ⟨"i", "lab-result", pos.1, pos.2, 400, .num 280, none, none⟩
         .ok (newItem, saveBoardItems (loadBoardItems (some []) [] "s").2 "s"
           (existingItems ++ [newItem])))) :=
  ⟨⟨by decide,
      (labResults_validation "s" badLabBody "i" (some []) []).1 (by decide)⟩,
    ⟨by decide,
      (labResults_validation "s" goodLabBody "i" (some []) []).2
        (by decide)⟩⟩

/-- C7 counterexample: a body whose five required fields are all present,
whose status is in the enum and whose range satisfies min < max — so by the
claim an item must be created — is rejected by the handler, because the
present-but-zero `value` is JS-falsy. -/
theorem labResults_present_zero_value_rejected :
    labResultSpecValid badLabBody = true ∧
    createLabResult "s" badLabBody "i" (some []) [] =
      .clientError "parameter, value, unit, status, and range are required" :=
  ⟨by decide, by decide⟩

/-- C6 (amended): the todos, lab-results, ehr-data, agents and enhanced-todo
endpoints persist caller-supplied coordinates verbatim and bypass the layout
engine; the generic board-items endpoint honors a supplied coordinate only
when it is truthy (a supplied 0 falls back to the random default); and the
doctor-notes endpoint ignores supplied coordinates entirely, always
recomputing the position with the zone layout engine. -/
theorem explicit_coordinates_honored
    (sid freshId : String) (file : Option (List Item)) (st : Store) :
    (∀ (body : TodoRequest) (bx by0 : Int) (item : Item) (st2 : Store),
      body.x = some bx → body.y = some by0 →
      createTodo sid body freshId file st = .ok (item, st2) →
      item.x = bx ∧ item.y = by0) ∧
    (∀ (body : LabResultRequest) (bx by0 : Int) (item : Item) (st2 : Store),
      body.x = some bx → body.y = some by0 →
      createLabResult sid body freshId file st = .ok (item, st2) →
      item.x = bx ∧ item.y = by0) ∧
    (∀ (body : EhrDataRequest) (bx by0 : Int) (item : Item) (st2 : Store),
      body.x = some bx → body.y = some by0 →
      createEhrData sid body freshId file st = .ok (item, st2) →
      item.x = bx ∧ item.y = by0) ∧
    (∀ (bx by0 : Int) (zone : Option String) (h : Int)
      (existing : List Item),
      agentsResolvePosition (some bx) (some by0) zone h existing =
        (bx, by0)) ∧
    (∀ (bx by0 : Int) (w : Int) (ht : JHeight) (td : TodoData)
      (existing : List Item),
      enhancedTodoResolvePosition (some bx) (some by0) w ht td existing =
        (bx, by0)) ∧
    (∀ (x y : Option Int) (randX randY : Int),
      (truthyInt x = true → (boardItemCoords x y randX randY).1 = x.getD 0) ∧
      (boardItemCoords (some 0) y randX randY).1 = randX) ∧
    (∀ (body : DoctorNoteRequest) (item : Item) (st2 : Store),
      createDoctorNote sid body freshId file st = .ok (item, st2) →
      (item.x, item.y) =
        findPositionInZone
          ⟨freshId, "doctor-note", body.x.getD 4300, body.y.getD (-2200),
            (if truthyInt body.width then body.width.getD 0 else 450),
            .num (if truthyInt body.height then body.height.getD 0 else 600),
            none, none⟩
          (loadBoardItems file st sid).1 DOCTORS_NOTE_ZONE) := by
  refine ⟨?_, ?_, ?_, ?_, ?_, ?_, ?_⟩
  · intro body bx by0 item st2 hx hy hok
    unfold createTodo at hok
    split at hok
    · split at hok
      · exact absurd hok (by simp)
      · rw [hx, hy] at hok
        simp only [HResult.ok.injEq, Prod.mk.injEq] at hok
        obtain ⟨hitem, -⟩ := hok
        subst hitem
        exact ⟨rfl, rfl⟩
    · exact absurd hok (by simp)
  · intro body bx by0 item st2 hx hy hok
    unfold createLabResult at hok
    rw [hx, hy] at hok
    split at hok
    · exact absurd hok (by simp)
    · split at hok
      · rename_i a b bx2 by2 heqx heqy
        obtain rfl := Option.some.inj heqx
        obtain rfl := Option.some.inj heqy
        dsimp only [] at hok
        split at hok
        · exact absurd hok (by simp)
        · split at hok
          · exact absurd hok (by simp)
          · simp only [HResult.ok.injEq, Prod.mk.injEq] at hok
            obtain ⟨hitem, -⟩ := hok
            subst hitem
            exact ⟨rfl, rfl⟩
      · rename_i a b hcontra
        exact (hcontra bx by0 rfl rfl).elim
  · intro body bx by0 item st2 hx hy hok
    unfold createEhrData at hok
    split at hok
    · exact absurd hok (by simp)
    · rw [hx, hy] at hok
      simp only [HResult.ok.injEq, Prod.mk.injEq] at hok
      obtain ⟨hitem, -⟩ := hok
      subst hitem
      exact ⟨rfl, rfl⟩
  · intro bx by0 zone h existing
    rfl
  · intro bx by0 w ht td existing
    rfl
  · intro x y randX randY
    constructor
    · intro hx
      unfold boardItemCoords
      rw [if_pos hx]
    · rfl
  · intro body item st2 hok
    unfold createDoctorNote at hok
    simp only [HResult.ok.injEq, Prod.mk.injEq] at hok
    obtain ⟨hitem, -⟩ := hok
    subst hitem
    rfl

/-- Witness for C6 at concrete bodies carrying explicit coordinates. -/
theorem explicit_coordinates_honored_witness :
    ((⟨some "T", none, some [.str "a"], some 7, some 9⟩ :
        TodoRequest).x = some 7) ∧
    (∀ (body : TodoRequest) (bx by0 : Int) (item : Item) (st2 : Store),
      body.x = some bx → body.y = some by0 →
      createTodo "s" body "i" (some []) [] = .ok (item, st2) →
      item.x = bx ∧ item.y = by0) ∧
    (∀ (body : DoctorNoteRequest) (item : Item) (st2 : Store),
      createDoctorNote "s" body "i" (some []) [] = .ok (item, st2) →
      (item.x, item.y) =
        findPositionInZone
          ⟨"i", "doctor-note", body.x.getD 4300, body.y.getD (-2200),
            (if truthyInt body.width then body.width.getD 0 else 450),
            .num (if truthyInt body.height then body.height.getD 0 else 600),
            none, none⟩
          (loadBoardItems (some []) [] "s").1 DOCTORS_NOTE_ZONE) :=
  ⟨rfl, (explicit_coordinates_honored "s" "i" (some []) []).1,
    (explicit_coordinates_honored "s" "i" (some []) []).2.2.2.2.2.2⟩

/-- C6 counterexample: the doctor-notes endpoint, given explicit coordinates
(1234, 5678), persists the item at the layout engine's position
(4260, -2240) instead. -/
theorem doctorNote_overwrites_supplied_coordinates :
    createDoctorNote "s" ⟨some "hi", some 1234, some 5678, none, none⟩ "dn1"
        (some []) [] =
      .ok (⟨"dn1", "doctor-note", 4260, -2240, 450, .num 600, none, none⟩,
        [("s", [⟨"dn1", "doctor-note", 4260, -2240, 450, .num 600, none,
          none⟩])]) ∧
    ¬((4260 : Int) = 1234 ∧ (-2240 : Int) = 5678) :=
  ⟨by decide, by decide⟩

lemma filter_idem (p : Item → Bool) (l : List Item) :
    (l.filter p).filter p = l.filter p := by
  rw [List.filter_filter]
  exact List.filter_congr (fun a _ => Bool.and_self (p a))

/-- C4 (amended): the generic column packer — the function every creation
endpoint actually calls, including POST /api/todos — considers exactly the
items geometrically contained in the zone rectangle, with no type filter;
the dedicated task-zone packer additionally restricts to todo items; and
the todos endpoint computes its placement with the generic packer. -/
theorem zone_packing_candidate_sets
    (sid freshId : String) (file : Option (List Item)) (st : Store) :
    (∀ (newItem : Item) (existing : List Item) (zone : Zone),
      findPositionInZone newItem existing zone =
        findPositionInZone newItem (existing.filter (inZone zone)) zone) ∧
    (∀ (newItem : Item) (existing : List Item),
      findTaskZonePosition newItem existing =
        findTaskZonePosition newItem
          (existing.filter
            (fun it => inZone TASK_ZONE it && it.type == "todo"))) ∧
    (∀ (title : String) (desc : Option String) (tis : List TodoItemInput),
      ¬title = "" →
      createTodo sid ⟨some title, desc, some tis, none, none⟩ freshId file st
        =
        (let todos := tis.map mapTodoInput
         let dh := calculateTodoHeight todos desc
         let existing := (loadBoardItems file st sid).1
         let pos := findPositionInZone
           ⟨"", "todo", 0, 0, 420, .num dh, none, none⟩ existing TASK_ZONE
         let newItem : Item :=
           ⟨freshId, "todo", pos.1, pos.2, 420, .num dh,
             some ⟨title, desc.getD "", todos⟩, none⟩
         .ok (newItem, saveBoardItems (loadBoardItems file st sid).2 sid
           (existing ++ [newItem])))) := by
  refine ⟨?_, ?_, ?_⟩
  · intro newItem existing zone
    simp only [findPositionInZone]
    rw [filter_idem]
  · intro newItem existing
    simp only [findTaskZonePosition]
    rw [filter_idem]
  · intro title desc tis htitle
    simp only [createTodo]
    rw [if_neg (by simpa using htitle)]

/-- Witness for C4 at a concrete zone, item set and todos request. -/
theorem zone_packing_candidate_sets_witness :
    (findPositionInZone todoTemp [agentInTask] TASK_ZONE =
      findPositionInZone todoTemp ([agentInTask].filter (inZone TASK_ZONE))
        TASK_ZONE) ∧
    (findTaskZonePosition todoTemp [agentInTask] =
      findTaskZonePosition todoTemp
        ([agentInTask].filter
          (fun it => inZone TASK_ZONE it && it.type == "todo"))) ∧
    ¬("T" : String) = "" ∧
    createTodo "s" ⟨some "T", none, some [.str "a"], none, none⟩ "i"
        (some []) [] =
      (let todos := [TodoItemInput.str "a"].map mapTodoInput
       let dh := calculateTodoHeight todos none
       let existing := (loadBoardItems (some []) [] "s").1
       let pos := findPositionInZone
         ⟨"", "todo", 0, 0, 420, .num dh, none, none⟩ existing TASK_ZONE
       let newItem : Item :=
         ⟨"i", "todo", pos.1, pos.2, 420, .num dh,
           some ⟨"T", "", todos⟩, none⟩
       .ok (newItem, saveBoardItems (loadBoardItems (some []) [] "s").2 "s"
         (existing ++ [newItem]))) :=
  ⟨(zone_packing_candidate_sets "s" "i" (some []) []).1 todoTemp
      [agentInTask] TASK_ZONE,
    (zone_packing_candidate_sets "s" "i" (some []) []).2.1 todoTemp
      [agentInTask],
    by decide,
    (zone_packing_candidate_sets "s" "i" (some []) []).2.2 "T" none
      [.str "a"] (by decide)⟩

/-- C4 counterexample: an agent item inside the task zone changes the
position the todos endpoint's packer computes for a new todo — the packer
returns (4840, 60) with the agent item present and (4260, 60) without it —
so non-todo items in the rectangle are NOT ignored, contrary to the claim
(the unused dedicated task-zone packer would ignore them). -/
theorem task_zone_packing_sees_non_todo_items :
    findPositionInZone todoTemp [agentInTask] TASK_ZONE = (4840, 60) ∧
    findPositionInZone todoTemp [] TASK_ZONE = (4260, 60) ∧
    findTaskZonePosition todoTemp [agentInTask] = (4260, 60) ∧
    ¬((4840 : Int), (60 : Int)) = ((4260 : Int), (60 : Int)) :=
  ⟨by decide, by decide, by decide, by decide⟩

/-! ## Delete-race lemmas -/

lemma filter_donePred_init (L0 : List Item) (idA idB : String) :
    L0.filter (donePred false false idA idB) = L0 := by
  rw [List.filter_congr (q := fun _ => true)
    (fun a _ => by simp [donePred])]
  exact List.filter_true L0

lemma filter_donePred_step1 (L0 : List Item) (idA idB : String) (d2 : Bool) :
    (L0.filter (donePred false d2 idA idB)).filter
        (fun it => it.id != idA) =
      L0.filter (donePred true d2 idA idB) := by
  rw [List.filter_filter]
  apply List.filter_congr
  intro a _
  cases h1 : (a.id != idA) <;> simp [donePred, h1]

lemma filter_donePred_step2 (L0 : List Item) (idA idB : String) (d1 : Bool) :
    (L0.filter (donePred d1 false idA idB)).filter
        (fun it => it.id != idB) =
      L0.filter (donePred d1 true idA idB) := by
  rw [List.filter_filter]
  apply List.filter_congr
  intro a _
  cases h1 : (a.id != idB) <;> cases d1 <;> simp [donePred, h1]

lemma raceStep_false (idA idB : String) (items : List Item) (lock : Bool)
    (p1 p2 : DPhase) :
    raceStep idA idB ⟨items, lock, p1, p2⟩ false =
      ⟨(dStep idB items lock p2).1, (dStep idB items lock p2).2.1, p1,
        (dStep idB items lock p2).2.2⟩ := rfl

lemma raceStep_true (idA idB : String) (items : List Item) (lock : Bool)
    (p1 p2 : DPhase) :
    raceStep idA idB ⟨items, lock, p1, p2⟩ true =
      ⟨(dStep idA items lock p1).1, (dStep idA items lock p1).2.1,
        (dStep idA items lock p1).2.2, p2⟩ := rfl

lemma raceStep_inv (L0 : List Item) (idA idB : String) (s : DelRace)
    (k : Bool) (h : RaceInv L0 idA idB s) :
    RaceInv L0 idA idB (raceStep idA idB s k) := by
  obtain ⟨items, lock, p1, p2⟩ := s
  obtain ⟨hlock, hmutex, hitems, hsnap1, hsnap2⟩ := h
  simp only at hlock hmutex hitems hsnap1 hsnap2
  cases k
  · -- the second request steps
    rw [raceStep_false]
    cases p2 with
    | waiting =>
      by_cases hl : lock = true
      · have hd : dStep idB items lock DPhase.waiting =
            (items, lock, .waiting) := by
          simp only [dStep]
          rw [if_pos hl]
        rw [hd]
        exact ⟨hlock, hmutex, hitems, hsnap1, hsnap2⟩
      · have hd : dStep idB items lock DPhase.waiting =
            (items, true, .acquired) := by
          simp only [dStep]
          rw [if_neg hl]
        rw [hd]
        have hlockf : lock = false := by
          cases lock
          · rfl
          · exact absurd rfl hl
        have hp1 : inCrit p1 = false := by
          rw [hlockf] at hlock
          cases hc : inCrit p1
          · rfl
          · rw [hc] at hlock
            exact absurd hlock (by simp)
        simp only [inCrit] at hp1
        refine ⟨by simp [inCrit], by simp [inCrit, hp1], hitems,
          hsnap1, ?_⟩
        intro s hq
        cases hq
    | acquired =>
      have hd : dStep idB items lock DPhase.acquired =
          (items, lock, .loaded items) := rfl
      rw [hd]
      refine ⟨hlock, hmutex, hitems, hsnap1, ?_⟩
      intro s hq
      cases hq
      rfl
    | loaded snap =>
      have hp1 : inCrit p1 = false := by
        cases hc : inCrit p1
        · rfl
        · exact absurd ⟨hc, rfl⟩ hmutex
      simp only [inCrit] at hp1
      have hsnapeq : snap = items := hsnap2 snap rfl
      have hitems2 : items = L0.filter (donePred (isDone p1) false idA idB) :=
        hitems
      by_cases hlen :
          (snap.filter (fun it => it.id != idB)).length = snap.length
      · have hd : dStep idB items lock (DPhase.loaded snap) =
            (items, false, .done) := by
          simp only [dStep]
          rw [if_pos hlen]
        rw [hd]
        have hfeq : items.filter (fun it => it.id != idB) = items := by
          rw [← hsnapeq]
          exact (List.filter_sublist snap).eq_of_length hlen
        refine ⟨by simp [inCrit, hp1], by simp [inCrit, hp1], ?_,
          hsnap1, ?_⟩
        · show items = L0.filter (donePred (isDone p1) true idA idB)
          conv_lhs => rw [← hfeq, hitems2]
          exact filter_donePred_step2 L0 idA idB (isDone p1)
        · intro s hq
          cases hq
      · have hd : dStep idB items lock (DPhase.loaded snap) =
            (snap.filter (fun it => it.id != idB), false, .done) := by
          simp only [dStep]
          rw [if_neg hlen]
        rw [hd]
        refine ⟨by simp [inCrit, hp1], by simp [inCrit, hp1], ?_, ?_, ?_⟩
        · show snap.filter (fun it => it.id != idB) =
            L0.filter (donePred (isDone p1) true idA idB)
          rw [hsnapeq, hitems2]
          exact filter_donePred_step2 L0 idA idB (isDone p1)
        · intro s hq
          dsimp only at hq
          rw [hq] at hp1
          exact absurd hp1 (by simp)
        · intro s hq
          cases hq
    | done =>
      have hd : dStep idB items lock DPhase.done =
          (items, lock, .done) := rfl
      rw [hd]
      exact ⟨hlock, hmutex, hitems, hsnap1, hsnap2⟩
  · -- the first request steps
    rw [raceStep_true]
    cases p1 with
    | waiting =>
      by_cases hl : lock = true
      · have hd : dStep idA items lock DPhase.waiting =
            (items, lock, .waiting) := by
          simp only [dStep]
          rw [if_pos hl]
        rw [hd]
        exact ⟨hlock, hmutex, hitems, hsnap1, hsnap2⟩
      · have hd : dStep idA items lock DPhase.waiting =
            (items, true, .acquired) := by
          simp only [dStep]
          rw [if_neg hl]
        rw [hd]
        have hlockf : lock = false := by
          cases lock
          · rfl
          · exact absurd rfl hl
        have hp2 : inCrit p2 = false := by
          rw [hlockf] at hlock
          cases hc : inCrit p2
          · rfl
          · rw [hc] at hlock
            exact absurd hlock (by simp)
        simp only [inCrit] at hp2
        refine ⟨by simp [inCrit], by simp [inCrit, hp2], hitems,
          ?_, hsnap2⟩
        intro s hq
        cases hq
    | acquired =>
      have hd : dStep idA items lock DPhase.acquired =
          (items, lock, .loaded items) := rfl
      rw [hd]
      refine ⟨hlock, hmutex, hitems, ?_, hsnap2⟩
      intro s hq
      cases hq
      rfl
    | loaded snap =>
      have hp2 : inCrit p2 = false := by
        cases hc : inCrit p2
        · rfl
        · exact absurd ⟨rfl, hc⟩ hmutex
      simp only [inCrit] at hp2
      have hsnapeq : snap = items := hsnap1 snap rfl
      have hitems2 : items = L0.filter (donePred false (isDone p2) idA idB) :=
        hitems
      by_cases hlen :
          (snap.filter (fun it => it.id != idA)).length = snap.length
      · have hd : dStep idA items lock (DPhase.loaded snap) =
            (items, false, .done) := by
          simp only [dStep]
          rw [if_pos hlen]
        rw [hd]
        have hfeq : items.filter (fun it => it.id != idA) = items := by
          rw [← hsnapeq]
          exact (List.filter_sublist snap).eq_of_length hlen
        refine ⟨by simp [inCrit, hp2], by simp [inCrit, hp2], ?_,
          ?_, hsnap2⟩
        · show items = L0.filter (donePred true (isDone p2) idA idB)
          conv_lhs => rw [← hfeq, hitems2]
          exact filter_donePred_step1 L0 idA idB (isDone p2)
        · intro s hq
          cases hq
      · have hd : dStep idA items lock (DPhase.loaded snap) =
            (snap.filter (fun it => it.id != idA), false, .done) := by
          simp only [dStep]
          rw [if_neg hlen]
        rw [hd]
        refine ⟨by simp [inCrit, hp2], by simp [inCrit, hp2], ?_, ?_, ?_⟩
        · show snap.filter (fun it => it.id != idA) =
            L0.filter (donePred true (isDone p2) idA idB)
          rw [hsnapeq, hitems2]
          exact filter_donePred_step1 L0 idA idB (isDone p2)
        · intro s hq
          cases hq
        · intro s hq
          dsimp only at hq
          rw [hq] at hp2
          exact absurd hp2 (by simp)
    | done =>
      have hd : dStep idA items lock DPhase.done =
          (items, lock, .done) := rfl
      rw [hd]
      exact ⟨hlock, hmutex, hitems, hsnap1, hsnap2⟩

lemma raceRun_inv (L0 : List Item) (idA idB : String) :
    ∀ (sched : List Bool) (s : DelRace), RaceInv L0 idA idB s →
      RaceInv L0 idA idB (raceRun idA idB s sched)
  | [], _, h => h
  | k :: ks, s, h =>
      raceRun_inv L0 idA idB ks _ (raceStep_inv L0 idA idB s k h)

lemma raceInit_inv (L0 : List Item) (idA idB : String) :
    RaceInv L0 idA idB (raceInit L0) := by
  refine ⟨rfl, by simp [raceInit, inCrit],
    (filter_donePred_init L0 idA idB).symm, ?_, ?_⟩
  · intro s hq
    simp [raceInit] at hq
  · intro s hq
    simp [raceInit] at hq

/-- C3: delete race freedom. Two concurrent single-item DELETE requests for
ids A and B of one session, interleaved at their await points under ANY
schedule in which both complete, leave the session's item list equal to the
original list minus both items — the per-session lock serializes the two
load-filter-save sequences, so neither delete is lost. -/
theorem delete_race_freedom (L0 : List Item) (idA idB : String)
    (sched : List Bool) (hAB : idA ≠ idB)
    (hA : idA ∈ L0.map Item.id) (hB : idB ∈ L0.map Item.id)
    (hdone1 : (raceRun idA idB (raceInit L0) sched).p1 = .done)
    (hdone2 : (raceRun idA idB (raceInit L0) sched).p2 = .done) :
    (raceRun idA idB (raceInit L0) sched).items =
      L0.filter (fun it => it.id != idA && it.id != idB) := by
  obtain ⟨-, -, hitems, -, -⟩ :=
    raceRun_inv L0 idA idB sched (raceInit L0) (raceInit_inv L0 idA idB)
  rw [hdone1, hdone2] at hitems
  rw [hitems]
  apply List.filter_congr
  intro a _
  simp [donePred, isDone]

/-- Witness for C3: both requests complete under the schedule that runs the
first delete to completion and then the second; the two-item list ends
empty. -/
theorem delete_race_freedom_witness :
    ("A" : String) ≠ "B" ∧
    "A" ∈ [demoA, demoB].map Item.id ∧
    "B" ∈ [demoA, demoB].map Item.id ∧
    (raceRun "A" "B" (raceInit [demoA, demoB])
      [true, true, true, false, false, false]).p1 = .done ∧
    (raceRun "A" "B" (raceInit [demoA, demoB])
      [true, true, true, false, false, false]).p2 = .done ∧
    (raceRun "A" "B" (raceInit [demoA, demoB])
      [true, true, true, false, false, false]).items =
      [demoA, demoB].filter (fun it => it.id != "A" && it.id != "B") :=
  ⟨by decide, by decide, by decide, by decide, by decide,
    delete_race_freedom [demoA, demoB] "A" "B"
      [true, true, true, false, false, false] (by decide) (by decide)
      (by decide) (by decide) (by decide)⟩

/-! ## Grid-scan lemmas -/

lemma mem_rowMajorCells (R C : Nat) (rc : Nat × Nat) :
    rc ∈ rowMajorCells R C ↔ rc.1 < R ∧ rc.2 < C := by
  cases rc with
  | mk r c =>
    unfold rowMajorCells
    simp only [List.mem_flatMap, List.mem_map, List.mem_range,
      Prod.mk.injEq]
    constructor
    · rintro ⟨a, ha, b, hb, rfl, rfl⟩
      exact ⟨ha, hb⟩
    · rintro ⟨hr, hc⟩
      exact ⟨r, hr, c, hc, rfl, rfl⟩

lemma rowMajorCells_succ (R C : Nat) :
    rowMajorCells (R + 1) C =
      rowMajorCells R C ++ (List.range C).map (fun c => (R, c)) := by
  unfold rowMajorCells
  rw [List.range_succ, List.flatMap_append]
  simp

lemma find?_range_first (p : Nat → Bool) :
    ∀ (C c : Nat), c < C → p c = true → (∀ c2, c2 < c → p c2 = false) →
      (List.range C).find? p = some c := by
  intro C
  induction C with
  | zero =>
    intro c hc
    exact absurd hc (Nat.not_lt_zero c)
  | succ C ih =>
    intro c hc hp hbefore
    rw [List.range_succ, List.find?_append]
    by_cases hcC : c < C
    · rw [ih c hcC hp hbefore]
      rfl
    · have hceq : c = C := by omega
      have hnone : (List.range C).find? p = none := by
        rw [List.find?_eq_none]
        intro x hx
        have hxc : x < c := by
          rw [hceq]
          exact List.mem_range.mp hx
        simp [hbefore x hxc]
      rw [hnone, Option.none_or,
        List.find?_cons_of_pos _ (by rw [← hceq]; exact hp), hceq]

lemma find?_rowMajor_eq_none (occ : Nat → Nat → Bool) (R C : Nat)
    (h : ∀ r c, r < R → c < C → occ r c = true) :
    (rowMajorCells R C).find? (fun rc => !occ rc.1 rc.2) = none := by
  rw [List.find?_eq_none]
  intro x hx
  obtain ⟨h1, h2⟩ := (mem_rowMajorCells R C x).mp hx
  simp [h x.1 x.2 h1 h2]

lemma find?_rowMajor_first (occ : Nat → Nat → Bool) :
    ∀ (R C r c : Nat), r < R → c < C → occ r c = false →
      (∀ r2 c2, c2 < C → (r2 < r ∨ (r2 = r ∧ c2 < c)) → occ r2 c2 = true) →
      (rowMajorCells R C).find? (fun rc => !occ rc.1 rc.2) = some (r, c) := by
  intro R
  induction R with
  | zero =>
    intro C r c hr
    exact absurd hr (Nat.not_lt_zero r)
  | succ R ih =>
    intro C r c hr hc hfree hbefore
    rw [rowMajorCells_succ, List.find?_append]
    by_cases hrR : r < R
    · rw [ih C r c hrR hc hfree hbefore]
      rfl
    · have hreq : r = R := by omega
      have hnone : (rowMajorCells R C).find? (fun rc => !occ rc.1 rc.2)
          = none := by
        rw [List.find?_eq_none]
        intro x hx
        obtain ⟨h1, h2⟩ := (mem_rowMajorCells R C x).mp hx
        have h1r : x.1 < r := by
          rw [hreq]
          exact h1
        simp [hbefore x.1 x.2 h2 (Or.inl h1r)]
      rw [hnone, Option.none_or, List.find?_map]
      have hrange : (List.range C).find?
          ((fun rc : Nat × Nat => !occ rc.1 rc.2) ∘ fun c2 => (R, c2)) =
            some c := by
        apply find?_range_first _ C c hc
        · show (!occ R c) = true
          rw [← hreq]
          simp [hfree]
        · intro c2 hlt
          show (!occ R c2) = false
          rw [← hreq]
          simp [hbefore r c2 (by omega) (Or.inr ⟨rfl, hlt⟩)]
      rw [hrange]
      rw [hreq]
      rfl

/-- C5 (amended): the grid-slot packers behave exactly as described — the
doctor's-notes grid function returns the corner of the first unoccupied cell
of its 3-row by 4-column grid in row-major order (stacking below when every
cell is occupied), and the retrieved-data grid function does the same on its
4-row by 3-column grid — but the doctor-notes and lab-results creation
endpoints never call them: both compute their placement with the generic
column packer over the respective zone. -/
theorem grid_slot_functions_vs_endpoints
    (sid freshId : String) (file : Option (List Item)) (st : Store) :
    (∀ (newItem : Item) (existing : List Item) (r c : Nat),
      firstFreeCellSpec
        (noteCellOccupied (existing.filter (fun item =>
          inZone DOCTORS_NOTE_ZONE item && item.type == "doctor-note")))
        3 4 r c →
      findDoctorsNotePosition newItem existing =
        (DOCTORS_NOTE_ZONE.x + (c : Int) * 470 + 50,
          DOCTORS_NOTE_ZONE.y + (r : Int) * 620 + 50)) ∧
    (∀ (newItem : Item) (existing : List Item),
      (∀ r c, r < 3 → c < 4 →
        noteCellOccupied (existing.filter (fun item =>
          inZone DOCTORS_NOTE_ZONE item && item.type == "doctor-note"))
          r c = true) →
      findDoctorsNotePosition newItem existing =
        (DOCTORS_NOTE_ZONE.x + 50,
          DOCTORS_NOTE_ZONE.y + 50 +
            ((existing.filter (fun item =>
              inZone DOCTORS_NOTE_ZONE item &&
                item.type == "doctor-note")).length : Int) * 620)) ∧
    (∀ (newItem : Item) (existing : List Item) (r c : Nat),
      firstFreeCellSpec
        (retrievedCellOccupied (existing.filter (fun item =>
          inZone RETRIEVED_DATA_ZONE item && isRetrievedDataKind item)))
        4 3 r c →
      findRetrievedDataZonePosition newItem existing =
        (RETRIEVED_DATA_ZONE.x + (c : Int) * 560 + 60,
          RETRIEVED_DATA_ZONE.y + (r : Int) * 490 + 60)) ∧
    (∀ (newItem : Item) (existing : List Item),
      (∀ r c, r < 4 → c < 3 →
        retrievedCellOccupied (existing.filter (fun item =>
          inZone RETRIEVED_DATA_ZONE item && isRetrievedDataKind item))
          r c = true) →
      findRetrievedDataZonePosition newItem existing =
        (RETRIEVED_DATA_ZONE.x + 60,
          RETRIEVED_DATA_ZONE.y + 60 +
            ((existing.filter (fun item =>
              inZone RETRIEVED_DATA_ZONE item &&
                isRetrievedDataKind item)).length : Int) * (490 + 60))) ∧
    (∀ (body : DoctorNoteRequest) (item : Item) (st2 : Store),
      createDoctorNote sid body freshId file st = .ok (item, st2) →
      (item.x, item.y) =
        findPositionInZone
          ⟨freshId, "doctor-note", body.x.getD 4300, body.y.getD (-2200),
            (if truthyInt body.width then body.width.getD 0 else 450),
            .num (if truthyInt body.height then body.height.getD 0 else 600),
            none, none⟩
          (loadBoardItems file st sid).1 DOCTORS_NOTE_ZONE) ∧
    (∀ (body : LabResultRequest) (item : Item) (st2 : Store),
      body.x = none →
      createLabResult sid body freshId file st = .ok (item, st2) →
      (item.x, item.y) =
        findPositionInZone ⟨"", "lab-result", 0, 0, 400, .num 280, none,
          none⟩ (loadBoardItems file st sid).1 RETRIEVED_DATA_ZONE) := by
  refine ⟨?_, ?_, ?_, ?_, ?_, ?_⟩
  · intro newItem existing r c hspec
    obtain ⟨hr, hc, hfree, hbefore⟩ := hspec
    have hfind := find?_rowMajor_first
      (noteCellOccupied (existing.filter (fun item =>
        inZone DOCTORS_NOTE_ZONE item && item.type == "doctor-note")))
      3 4 r c hr hc hfree
      (fun r2 c2 hc2 hlex => hbefore r2 c2
        (by rcases hlex with h | ⟨e, -⟩ <;> omega) hc2 hlex)
    simp only [findDoctorsNotePosition]
    rw [show (DOCTORS_NOTE_ZONE.width.fdiv 470).toNat = 4 from rfl,
      show (DOCTORS_NOTE_ZONE.height.fdiv 620).toNat = 3 from rfl, hfind]
  · intro newItem existing hocc
    have hfind := find?_rowMajor_eq_none
      (noteCellOccupied (existing.filter (fun item =>
        inZone DOCTORS_NOTE_ZONE item && item.type == "doctor-note")))
      3 4 hocc
    simp only [findDoctorsNotePosition]
    rw [show (DOCTORS_NOTE_ZONE.width.fdiv 470).toNat = 4 from rfl,
      show (DOCTORS_NOTE_ZONE.height.fdiv 620).toNat = 3 from rfl, hfind]
  · intro newItem existing r c hspec
    obtain ⟨hr, hc, hfree, hbefore⟩ := hspec
    have hfind := find?_rowMajor_first
      (retrievedCellOccupied (existing.filter (fun item =>
        inZone RETRIEVED_DATA_ZONE item && isRetrievedDataKind item)))
      4 3 r c hr hc hfree
      (fun r2 c2 hc2 hlex => hbefore r2 c2
        (by rcases hlex with h | ⟨e, -⟩ <;> omega) hc2 hlex)
    simp only [findRetrievedDataZonePosition]
    rw [show (RETRIEVED_DATA_ZONE.width.fdiv 560).toNat = 3 from rfl,
      show (RETRIEVED_DATA_ZONE.height.fdiv 490).toNat = 4 from rfl, hfind]
  · intro newItem existing hocc
    have hfind := find?_rowMajor_eq_none
      (retrievedCellOccupied (existing.filter (fun item =>
        inZone RETRIEVED_DATA_ZONE item && isRetrievedDataKind item)))
      4 3 hocc
    simp only [findRetrievedDataZonePosition]
    rw [show (RETRIEVED_DATA_ZONE.width.fdiv 560).toNat = 3 from rfl,
      show (RETRIEVED_DATA_ZONE.height.fdiv 490).toNat = 4 from rfl, hfind]
  · intro body item st2 hok
    unfold createDoctorNote at hok
    simp only [HResult.ok.injEq, Prod.mk.injEq] at hok
    obtain ⟨hitem, -⟩ := hok
    subst hitem
    rfl
  · intro body item st2 hx hok
    unfold createLabResult at hok
    rw [hx] at hok
    split at hok
    · exact absurd hok (by simp)
    · split at hok
      · rename_i a b bx2 by2 heqx heqy
        cases heqx
      · dsimp only [] at hok
        split at hok
        · exact absurd hok (by simp)
        · split at hok
          · exact absurd hok (by simp)
          · simp only [HResult.ok.injEq, Prod.mk.injEq] at hok
            obtain ⟨hitem, -⟩ := hok
            subst hitem
            rfl

/-- Witness for C5: on an empty session the doctor's-notes grid function
picks cell (0, 0) at (4250, -2250); with all twelve cells occupied it stacks
below; and the endpoints' positions come from the column packer. -/
theorem grid_slot_functions_vs_endpoints_witness :
    firstFreeCellSpec (noteCellOccupied (([] : List Item).filter
        (fun item =>
          inZone DOCTORS_NOTE_ZONE item && item.type == "doctor-note")))
      3 4 0 0 ∧
    findDoctorsNotePosition noteTemp [] =
      (DOCTORS_NOTE_ZONE.x + ((0 : Nat) : Int) * 470 + 50,
        DOCTORS_NOTE_ZONE.y + ((0 : Nat) : Int) * 620 + 50) ∧
    (∀ (body : DoctorNoteRequest) (item : Item) (st2 : Store),
      createDoctorNote "s" body "i" (some []) [] = .ok (item, st2) →
      (item.x, item.y) =
        findPositionInZone
          ⟨"i", "doctor-note", body.x.getD 4300, body.y.getD (-2200),
            (if truthyInt body.width then body.width.getD 0 else 450),
            .num (if truthyInt body.height then body.height.getD 0 else 600),
            none, none⟩
          (loadBoardItems (some []) [] "s").1 DOCTORS_NOTE_ZONE) :=
  ⟨⟨by decide, by decide, by decide, by
      intro r2 c2 _ _ h
      rcases h with h | ⟨-, h⟩ <;> exact absurd h (by omega)⟩,
    (grid_slot_functions_vs_endpoints "s" "i" (some []) []).1 noteTemp [] 0 0
      ⟨by decide, by decide, by decide, by
        intro r2 c2 _ _ h
        rcases h with h | ⟨-, h⟩ <;> exact absurd h (by omega)⟩,
    (grid_slot_functions_vs_endpoints "s" "i"
      (some []) []).2.2.2.2.1⟩

/-- C5 counterexample: on an empty session the doctor-notes endpoint places
the new note at (4260, -2240) — the column packer's first slot — while the
first unoccupied grid cell's corner is (4250, -2250), so the chosen position
is NOT the grid-slot position the claim describes. -/
theorem doctorNote_endpoint_position_is_not_grid_slot :
    (match createDoctorNote "s" ⟨some "hi", none, none, none, none⟩ "dn1"
        (some []) [] with
      | .ok (item, _) => (item.x, item.y)
      | .clientError _ => (0, 0)) = ((4260 : Int), (-2240 : Int)) ∧
    findDoctorsNotePosition noteTemp [] = ((4250 : Int), (-2250 : Int)) ∧
    ¬((4260 : Int), (-2240 : Int)) = ((4250 : Int), (-2250 : Int)) :=
  ⟨by decide, by decide, by decide⟩

end Board
